import Mathlib

/-!
Shallow embedding of the unified-inbox Sync Engine
(src/backend-sync-tasks.py, src/backend-gmail-service.py,
src/backend-outlook-service.py, and the row models in
src/backend-models-*.py), together with theorems settling the
frozen claims about the natural-language specification.

Datetimes are modelled as `Int` (a totally ordered clock value).
External library calls that can fail (RFC-2822 date parsing,
ISO date parsing, the provider HTTP endpoints, credential
decryption) are modelled as explicit parameters returning
`Option`/`Except`, so every behaviour of the upstream library is
quantified over.  Base64url decoding (`errors="ignore"`, total in
the source) and credential encryption (opaque ciphertext) do not
affect any claim, so they are modelled as the identity on strings.
-/

namespace UnifiedInbox

/-- Python truthiness of an optional string: `None` and `""` are falsy. -/
def pyTruthyStrOpt (o : Option String) : Bool :=
  match o with
  | none => false
  | some s => s != ""

/-- Lookup in the Python dict comprehension
`\x7bh["name"]: h["value"] for h in headers\x7d`: a later header with the
same name overwrites an earlier one, so the lookup returns the value of
the LAST pair whose name matches. -/
def headerLookup (hs : List (String × String)) (name : String) : Option String :=
  hs.foldl (fun acc h => if h.1 == name then some h.2 else acc) none

/-- base64url decoding with `errors="ignore"`: total in the source; no
claim inspects the encoding, so it is abstracted as the identity. -/
def b64decode (s : String) : String := s

/-- Python `s.split(sep)` with an explicit one-character separator, on
the character list: `"".split(",") == [""]`, `"a,b".split(",") ==
["a", "b"]`. -/
def splitOnCharList (sep : Char) : List Char → List (List Char)
  | [] => [[]]
  | c :: rest =>
    let r := splitOnCharList sep rest
    if c = sep then [] :: r
    else
      match r with
      | [] => [[c]]
      | h :: t => (c :: h) :: t

/-- Python `s.split(sep)` for a one-character separator string (the
only form the source uses: `.split(",")`). -/
def pySplit (sep : Char) (s : String) : List String :=
  (splitOnCharList sep s.data).map (fun cs => String.mk cs)

/-- Python `s.replace(pat, sub)` for a one-character pattern (the only
form the source uses: `.replace("Z", "+00:00")`). -/
def pyReplaceCharList (pat : Char) (sub : List Char) : List Char → List Char
  | [] => []
  | c :: rest => (if c = pat then sub else [c]) ++ pyReplaceCharList pat sub rest

def pyReplaceChar (pat : Char) (sub : String) (s : String) : String :=
  String.mk (pyReplaceCharList pat sub.data s.data)

/-- Embeds `encryption_service.encrypt`: opaque ciphertext production,
abstracted as the identity (no claim inspects the ciphertext). -/
def encryption_encrypt (s : String) : String := s

/-- One entry of `message["payload"]["parts"]` of a raw Gmail record.
`bodyData` carries `part["body"]["data"]` (when the key is present),
`bodyAttachmentId` carries `part["body"]["attachmentId"]`, `bodySize`
carries `part["body"]["size"]`. -/
structure GmailPart where
  mimeType : String
  filename : Option String
  bodyData : Option String
  bodyAttachmentId : Option String
  bodySize : Option Nat
deriving Repr, DecidableEq

/-- A raw Gmail message record as consumed by
`GmailService.parse_message` (src/backend-gmail-service.py:124).
`headers` is `message["payload"]["headers"]`, `parts` is present iff
`"parts" in message["payload"]`, `bodyData` is present iff
`"body" in payload and "data" in payload["body"]`. -/
structure GmailRaw where
  id : String
  threadId : String
  snippet : Option String
  headers : List (String × String)
  parts : Option (List GmailPart)
  bodyData : Option String
deriving Repr, DecidableEq

/-- One entry of a raw Outlook record's `attachments` list. -/
structure OutlookAttachment where
  name : Option String
  contentType : Option String
  size : Option Nat
  id : Option String
deriving Repr, DecidableEq

/-- A raw Outlook (Microsoft Graph) message record as consumed by
`OutlookService.parse_message` (src/backend-outlook-service.py:102).
`toRecipients` etc. hold the `r["emailAddress"]["address"]` strings of
each recipient entry; `fromAddress` is the value of
`message.get("from", \x7b\x7d).get("emailAddress", \x7b\x7d).get("address", "")`
when the full chain of keys is present, `none` otherwise;
`bodyContentType`/`bodyContent` are the fields of `message.get("body", \x7b\x7d)`. -/
structure OutlookRaw where
  id : String
  conversationId : Option String
  receivedDateTime : Option String
  sentDateTime : Option String
  toRecipients : Option (List String)
  ccRecipients : Option (List String)
  bccRecipients : Option (List String)
  fromAddress : Option String
  bodyContentType : Option String
  bodyContent : Option String
  subject : Option String
  bodyPreview : Option String
  hasAttachments : Option Bool
  attachments : Option (List OutlookAttachment)
deriving Repr, DecidableEq

/-- One entry of the `attachments` list of a parsed (canonical) message. -/
structure ParsedAttachment where
  filename : String
  mime_type : String
  size : Nat
  attachment_id : String
deriving Repr, DecidableEq

/-- The standardized (canonical) record produced by both
`parse_message` variants.  The Gmail parser's dict has no `bcc_addrs`
key; the field is `[]` there and is never read by the pipeline. -/
structure ParsedMessage where
  provider_message_id : String
  thread_id : String
  from_addr : String
  to_addrs : List String
  cc_addrs : List String
  bcc_addrs : List String
  subject : String
  date : Int
  body_text : String
  body_html : String
  snippet : String
  attachments : List ParsedAttachment
  has_attachments : Bool
deriving Repr, DecidableEq

namespace GmailService

/-- Embeds `GmailService.parse_message` (src/backend-gmail-service.py:124-174).
`parseDate` is the outcome of `email.utils.parsedate_to_datetime`
(`none` = the library raised); `now` is `datetime.utcnow()` at
ingestion time. -/
def parse_message (parseDate : String → Option Int) (now : Int)
    (message : GmailRaw) : ParsedMessage :=
  let headers := message.headers
  let bodyPair : String × String :=
    match message.parts with
    | some parts =>
      parts.foldl (fun (bp : String × String) part =>
        if part.mimeType == "text/plain" && part.bodyData.isSome then
          (b64decode (part.bodyData.getD ""), bp.2)
        else if part.mimeType == "text/html" && part.bodyData.isSome then
          (bp.1, b64decode (part.bodyData.getD ""))
        else bp) ("", "")
    | none =>
      match message.bodyData with
      | some d => (b64decode d, "")
      | none => ("", "")
  let attachments : List ParsedAttachment :=
    match message.parts with
    | some parts =>
      parts.foldr (fun part acc =>
        if pyTruthyStrOpt part.filename && pyTruthyStrOpt part.bodyAttachmentId then
          { filename := part.filename.getD ""
            mime_type := part.mimeType
            size := part.bodySize.getD 0
            attachment_id := part.bodyAttachmentId.getD "" } :: acc
        else acc) []
    | none => []
  let date_str := (headerLookup headers "Date").getD ""
  let date := (parseDate date_str).getD now
  { provider_message_id := message.id
    thread_id := message.threadId
    from_addr := (headerLookup headers "From").getD ""
    to_addrs := pySplit ',' ((headerLookup headers "To").getD "")
    cc_addrs :=
      match headerLookup headers "Cc" with
      | some v => if v != "" then pySplit ',' ((headerLookup headers "Cc").getD "") else []
      | none => []
    bcc_addrs := []
    subject := (headerLookup headers "Subject").getD ""
    date := date
    body_text := bodyPair.1
    body_html := bodyPair.2
    snippet := message.snippet.getD ""
    attachments := attachments
    has_attachments := attachments.length > 0 }

end GmailService

namespace OutlookService

/-- Embeds `OutlookService.parse_message` (src/backend-outlook-service.py:102-157).
`parseIso` is the outcome of `datetime.fromisoformat` applied to the
date string after `.replace("Z", "+00:00")` (`none` = the library
raised); `now` is `datetime.utcnow()` at ingestion time. -/
def parse_message (parseIso : String → Option Int) (now : Int)
    (message : OutlookRaw) : ParsedMessage :=
  let date_str := message.receivedDateTime.getD (message.sentDateTime.getD "")
  let date := (parseIso (pyReplaceChar 'Z' "+00:00" date_str)).getD now
  let to_addrs := message.toRecipients.getD []
  let cc_addrs := message.ccRecipients.getD []
  let bcc_addrs := message.bccRecipients.getD []
  let from_addr := message.fromAddress.getD ""
  let bodyPair : String × String :=
    if message.bodyContentType == some "html" then
      ("", message.bodyContent.getD "")
    else
      (message.bodyContent.getD "", "")
  let attachments : List ParsedAttachment :=
    if message.hasAttachments.getD false then
      (message.attachments.getD []).map (fun att =>
        { filename := att.name.getD ""
          mime_type := att.contentType.getD ""
          size := att.size.getD 0
          attachment_id := att.id.getD "" })
    else []
  { provider_message_id := message.id
    thread_id := message.conversationId.getD message.id
    from_addr := from_addr
    to_addrs := to_addrs
    cc_addrs := cc_addrs
    bcc_addrs := bcc_addrs
    subject := message.subject.getD ""
    date := date
    body_text := bodyPair.1
    body_html := bodyPair.2
    snippet := message.bodyPreview.getD ""
    attachments := attachments
    has_attachments := message.hasAttachments.getD false }

end OutlookService

/-- A row of the `threads` table (src/backend-models-thread.py). -/
structure ThreadRow where
  id : Nat
  account_id : Nat
  provider_thread_id : String
  subject : String
  snippet : String
  last_message_at : Int
deriving Repr, DecidableEq, Inhabited

/-- A row of the `messages` table (src/backend-models-message.py).
Fields never written by the sync engine (`bcc_addrs`, `is_read`,
`created_at`) are omitted. -/
structure MessageRow where
  id : Nat
  thread_id : Nat
  provider_message_id : String
  from_addr : String
  to_addrs : List String
  cc_addrs : List String
  subject : String
  date : Int
  body_text : String
  body_html : String
  has_attachments : Bool
deriving Repr, DecidableEq, Inhabited

/-- A row of the `attachments` table (src/backend-models-message.py). -/
structure AttachmentRow where
  message_id : Nat
  filename : String
  size : Nat
  mime_type : String
  provider_attachment_id : String
deriving Repr, DecidableEq, Inhabited

/-- The three tables written by the sync engine, plus the primary-key
counters the database assigns on insert. -/
structure Store where
  threads : List ThreadRow
  messages : List MessageRow
  attachments : List AttachmentRow
  next_thread_id : Nat
  next_message_id : Nat
deriving Repr, DecidableEq, Inhabited

/-- Number of Message rows carrying a given `provider_message_id`. -/
def countMsg (p : String) (s : Store) : Nat :=
  (s.messages.filter (fun m => m.provider_message_id == p)).length

/-- The dedup existence check
`select(Message).where(Message.provider_message_id == ...)`
(src/backend-sync-tasks.py:144-147 and 240-243): global across
accounts, evaluated against the session's current (flushed) state. -/
def hasMsg (p : String) (s : Store) : Bool :=
  s.messages.any (fun m => m.provider_message_id == p)

/-- Insertion of the Message row and its Attachment rows under an
existing thread id (src/backend-sync-tasks.py:177-203, second half of
`process_gmail_message`; line-identical in `process_outlook_message`). -/
def insert_message_rows (tid : Nat) (parsed : ParsedMessage) (s : Store) : Store :=
  let mid := s.next_message_id
  let msg : MessageRow :=
    { id := mid
      thread_id := tid
      provider_message_id := parsed.provider_message_id
      from_addr := parsed.from_addr
      to_addrs := parsed.to_addrs
      cc_addrs := parsed.cc_addrs
      subject := parsed.subject
      date := parsed.date
      body_text := parsed.body_text
      body_html := parsed.body_html
      has_attachments := parsed.has_attachments }
  let atts := parsed.attachments.map (fun att =>
    { message_id := mid
      filename := att.filename
      size := att.size
      mime_type := att.mime_type
      provider_attachment_id := att.attachment_id : AttachmentRow })
  { s with
    messages := s.messages ++ [msg]
    attachments := s.attachments ++ atts
    next_message_id := mid + 1 }

/-- The common body of `process_gmail_message`
(src/backend-sync-tasks.py:139-203) and `process_outlook_message`
(src/backend-sync-tasks.py:235-299), whose texts are line-identical
after the parse call: dedup check on `provider_message_id`, then
find-or-create the Thread keyed by `(account_id, provider_thread_id)`
(on find, bump `last_message_at`/`snippet` only when the incoming date
is strictly greater), then insert the Message and Attachment rows. -/
def store_parsed_message (account_id : Nat) (parsed : ParsedMessage) (s : Store) : Store :=
  if hasMsg parsed.provider_message_id s then
    s
  else
    match s.threads.find? (fun t =>
        t.account_id == account_id && t.provider_thread_id == parsed.thread_id) with
    | none =>
      let tid := s.next_thread_id
      let t : ThreadRow :=
        { id := tid
          account_id := account_id
          provider_thread_id := parsed.thread_id
          subject := parsed.subject
          snippet := parsed.snippet
          last_message_at := parsed.date }
      insert_message_rows tid parsed
        { s with threads := s.threads ++ [t], next_thread_id := tid + 1 }
    | some t =>
      let threads' :=
        if parsed.date > t.last_message_at then
          s.threads.map (fun u =>
            if u.id == t.id then
              { u with last_message_at := parsed.date, snippet := parsed.snippet }
            else u)
        else s.threads
      insert_message_rows t.id parsed { s with threads := threads' }

/-- Embeds `process_gmail_message` (src/backend-sync-tasks.py:139-203). -/
def process_gmail_message (parseDate : String → Option Int) (now : Int)
    (msg_data : GmailRaw) (account_id : Nat) (s : Store) : Store :=
  store_parsed_message account_id (GmailService.parse_message parseDate now msg_data) s

/-- Embeds `process_outlook_message` (src/backend-sync-tasks.py:235-299). -/
def process_outlook_message (parseIso : String → Option Int) (now : Int)
    (msg_data : OutlookRaw) (account_id : Nat) (s : Store) : Store :=
  store_parsed_message account_id (OutlookService.parse_message parseIso now msg_data) s

/-- Embeds `EmailProvider` (src/backend-models-account.py:8-10). -/
inductive EmailProvider where
  | gmail
  | outlook
deriving Repr, DecidableEq

/-- A row of `email_accounts` (src/backend-models-account.py), the
fields the sync engine reads or writes.  `sync_state` models the JSON
column: `none` stands for a null/empty dict or a missing
`history_id`/`delta_link` key, `some c` for the stored cursor value. -/
structure EmailAccount where
  id : Nat
  provider : EmailProvider
  access_token : String
  encrypted_refresh_token : Option String
  token_expiry : Option Int
  sync_state : Option String
  last_synced_at : Option Int
  is_active : Bool
deriving Repr, DecidableEq

/-- The durable database contents the sync engine touches. -/
structure DbState where
  account : EmailAccount
  store : Store
deriving Repr, DecidableEq

/-- A SQLAlchemy session: `pending` is the in-transaction view
(mutated ORM objects and flushed inserts), `durable` is what the
database holds, `commits` records the durable state after each
`commit()` in order — a crash can leave the database at `durable`
after any prefix of the commits. -/
structure Sess where
  pending : DbState
  durable : DbState
  commits : List DbState
deriving Repr, DecidableEq

/-- Embeds `await db.commit()`: the pending state becomes durable. -/
def Sess.commit (s : Sess) : Sess :=
  { pending := s.pending, durable := s.pending, commits := s.commits ++ [s.pending] }

/-- Embeds `await db.rollback()`: uncommitted changes are discarded. -/
def Sess.rollback (s : Sess) : Sess :=
  { s with pending := s.durable }

/-- Mutate the in-session account object. -/
def Sess.withAccount (s : Sess) (a : EmailAccount) : Sess :=
  { s with pending := { s.pending with account := a } }

/-- Mutate the in-session store (adds/flushes of rows). -/
def Sess.withStore (s : Sess) (st : Store) : Sess :=
  { s with pending := { s.pending with store := st } }

/-- The JSON token response of a provider's refresh endpoint:
`access_token` (required by the code), `expires_in` (defaulted to 3600
when missing), `refresh_token` (rotation, only sometimes present). -/
structure TokenResponse where
  access_token : String
  expires_in : Option Int
  refresh_token : Option String
deriving Repr, DecidableEq

/-- The upstream behaviour of the Gmail API during one sync:
`history_list` is the outcome of `users().history().list(...)`
(`.error` = the call raised, e.g. a stale/expired `startHistoryId`),
carrying the `messagesAdded` record lists; `full_fetch` is the outcome
of the full-sync sequence `messages.list` + per-id `messages.get` +
`getProfile`, carrying the fetched messages and the profile's
`historyId`. -/
structure GmailApi where
  history_list : Except Unit (List (List GmailRaw))
  full_fetch : Except Unit (List GmailRaw × Option String)

/-- One page of a Microsoft Graph delta query response. -/
structure OutlookPage where
  value : List OutlookRaw
  delta_link : Option String
  next_link : Option String
deriving Repr, DecidableEq

/-- The upstream behaviour of the Graph API during one sync:
`delta_call d` is the outcome of `GET d` on a stored delta link
(`.error` = non-2xx, `raise_for_status` raised); `full_call` is the
outcome of the full delta query on the Inbox folder. -/
structure OutlookApi where
  delta_call : String → Except Unit OutlookPage
  full_call : Except Unit OutlookPage

/-- The result dict of `GmailService.fetch_messages`:
`\x7b"type": "full", ...\x7d` or `\x7b"type": "history", ...\x7d`. -/
inductive GmailFetchResult where
  | full (messages : List GmailRaw) (history_id : Option String)
  | history (data : List (List GmailRaw))
deriving Repr, DecidableEq

namespace GmailService

/-- Embeds `GmailService.fetch_messages` (src/backend-gmail-service.py:77-122):
with a (truthy) `history_id`, try the incremental history call and on
ANY exception fall back to the full sync; otherwise (or on fallback)
run the full sync, whose own exceptions propagate. -/
def fetch_messages (api : GmailApi) (history_id : Option String) :
    Except Unit GmailFetchResult :=
  if pyTruthyStrOpt history_id then
    match api.history_list with
    | .ok data => .ok (.history data)
    | .error _ => api.full_fetch.map (fun p => .full p.1 p.2)
  else
    api.full_fetch.map (fun p => .full p.1 p.2)

end GmailService

/-- The result dict of `OutlookService.fetch_messages`. -/
structure OutlookFetchResult where
  messages : List OutlookRaw
  delta_link : Option String
  next_link : Option String
deriving Repr, DecidableEq

namespace OutlookService

/-- Embeds `OutlookService.fetch_messages` (src/backend-outlook-service.py:72-100):
with a (truthy) `delta_link`, `GET delta_link`, else the full delta
query; either way `response.raise_for_status()` propagates a non-2xx
response as an exception — there is no fallback from a rejected delta
link to a full fetch. -/
def fetch_messages (api : OutlookApi) (delta_link : Option String) :
    Except Unit OutlookFetchResult :=
  let resp :=
    if pyTruthyStrOpt delta_link then api.delta_call (delta_link.getD "")
    else api.full_call
  resp.map (fun d =>
    { messages := d.value, delta_link := d.delta_link, next_link := d.next_link })

end OutlookService

/-- The external behaviours one sync call can observe: the ingestion
clock, the two date-parsing library outcomes, the outcome of the
provider's token-refresh endpoint (an `.error` also covers a failing
`encryption_service.decrypt`, since `refresh_token` catches every
exception of its try block alike), and the two provider APIs. -/
structure SyncEnv where
  now : Int
  parseDate : String → Option Int
  parseIso : String → Option Int
  refresh_call : Except Unit TokenResponse
  gmail : GmailApi
  outlook : OutlookApi

/-- Embeds `refresh_token` (src/backend-sync-tasks.py:68-97): with a falsy
stored refresh token, deactivate the account and return WITHOUT
raising and without committing; otherwise attempt the refresh — on
success update `access_token`/`token_expiry`, rotate the encrypted
refresh token only if the response contains one, and commit; on any
exception deactivate the account, commit, and return (the exception is
swallowed). -/
def refresh_token_step (env : SyncEnv) (s : Sess) : Sess :=
  let account := s.pending.account
  if !(pyTruthyStrOpt account.encrypted_refresh_token) then
    s.withAccount { account with is_active := false }
  else
    match env.refresh_call with
    | .ok tokens =>
      let account' :=
        { account with
          access_token := tokens.access_token
          token_expiry := some (env.now + tokens.expires_in.getD 3600)
          encrypted_refresh_token :=
            match tokens.refresh_token with
            | some rt => some (encryption_encrypt rt)
            | none => account.encrypted_refresh_token }
      (s.withAccount account').commit
    | .error _ =>
      (s.withAccount { account with is_active := false }).commit

/-- Embeds `sync_gmail_account` (src/backend-sync-tasks.py:100-136): fetch
with the stored `history_id`; on a full result process every message
and store the returned `history_id` (when truthy) as the new cursor;
on a history (incremental) result the loop over
`history`/`messagesAdded` records has a `pass` body and ingests
nothing (lines 126-130); either way commit at the end; a fetch
exception propagates to the caller. -/
def sync_gmail_account (env : SyncEnv) (s : Sess) : Except Unit Sess :=
  let account := s.pending.account
  match GmailService.fetch_messages env.gmail account.sync_state with
  | .error e => .error e
  | .ok (.full msgs hid) =>
    let store' := msgs.foldl (fun st m =>
      process_gmail_message env.parseDate env.now m account.id st) s.pending.store
    let s1 := s.withStore store'
    let s2 :=
      if pyTruthyStrOpt hid then
        s1.withAccount { s1.pending.account with sync_state := some (hid.getD "") }
      else s1
    .ok s2.commit
  | .ok (.history _data) =>
    .ok s.commit

/-- Embeds `sync_outlook_account` (src/backend-sync-tasks.py:206-232): fetch
with the stored `delta_link`, process every returned message, store
the returned `delta_link` (when truthy) as the new cursor, commit; a
fetch exception propagates to the caller. -/
def sync_outlook_account (env : SyncEnv) (s : Sess) : Except Unit Sess :=
  let account := s.pending.account
  match OutlookService.fetch_messages env.outlook account.sync_state with
  | .error e => .error e
  | .ok r =>
    let store' := r.messages.foldl (fun st m =>
      process_outlook_message env.parseIso env.now m account.id st) s.pending.store
    let s1 := s.withStore store'
    let s2 :=
      if pyTruthyStrOpt r.delta_link then
        s1.withAccount { s1.pending.account with sync_state := r.delta_link }
      else s1
    .ok s2.commit

/-- The observable outcome of one `sync_account_async` call.  `status`
and `reason` mirror the returned dict (`errorRaised` = the except
branch re-raised); `refresh_attempted` records whether `refresh_token`
was entered; `fetch_attempted`/`fetch_token` record whether the
provider fetch was reached and which access token it was handed. -/
inductive SyncStatus where
  | success
  | skipped
  | errorRaised
deriving Repr, DecidableEq

structure SyncOutcome where
  status : SyncStatus
  reason : Option String
  sess : Sess
  refresh_attempted : Bool
  fetch_attempted : Bool
  fetch_token : Option String
deriving Repr, DecidableEq

/-- The token-expiry check at src/backend-sync-tasks.py:46:
`if account.token_expiry and account.token_expiry < datetime.utcnow()`
(a datetime object is always truthy, so the first conjunct is a
None-check). -/
def needs_refresh (env : SyncEnv) (account : EmailAccount) : Bool :=
  match account.token_expiry with
  | some e => decide (e < env.now)
  | none => false

/-- The provider dispatch at src/backend-sync-tasks.py:50-53. -/
def sync_dispatch (env : SyncEnv) (provider : EmailProvider) (s : Sess) : Except Unit Sess :=
  match provider with
  | .gmail => sync_gmail_account env s
  | .outlook => sync_outlook_account env s

/-- Embeds `sync_account_async` (src/backend-sync-tasks.py:32-65).
`account_found` models whether the id lookup returned a row.
`other_sync_in_flight` is a ghost input recording whether another sync
for the same account is executing at call time: the source acquires no
lease, lock, or other single-flight guard, so the body never reads it.
Flow: skip when the account is missing or inactive; refresh the token
when `token_expiry` is non-null and strictly in the past; dispatch to
the provider's sync; on success stamp `last_synced_at` and commit; on
any exception roll back and re-raise (the `self.retry(...)` call in
the except branch itself raises, `self` being unbound there). -/
def sync_account_async (env : SyncEnv) (account_found : Bool)
    (other_sync_in_flight : Bool) (d0 : DbState) : SyncOutcome :=
  let s0 : Sess := { pending := d0, durable := d0, commits := [] }
  let account := d0.account
  if !(account_found && account.is_active) then
    { status := .skipped
      reason := some "account not found or inactive"
      sess := s0
      refresh_attempted := false
      fetch_attempted := false
      fetch_token := none }
  else
    let needs := needs_refresh env account
    let s1 := if needs then refresh_token_step env s0 else s0
    let tok := s1.pending.account.access_token
    match sync_dispatch env account.provider s1 with
    | .error _ =>
      { status := .errorRaised
        reason := none
        sess := s1.rollback
        refresh_attempted := needs
        fetch_attempted := true
        fetch_token := some tok }
    | .ok s2 =>
      let s3 := s2.withAccount { s2.pending.account with last_synced_at := some env.now }
      { status := .success
        reason := none
        sess := s3.commit
        refresh_attempted := needs
        fetch_attempted := true
        fetch_token := some tok }

/-- The durable database states reachable by crashing at any point of
one sync call: the initial state plus the state after each commit. -/
def reachable_states (d0 : DbState) (o : SyncOutcome) : List DbState :=
  d0 :: o.sess.commits

/-- Database well-formedness of the `threads` table: primary keys are
pairwise distinct and below the autoincrement counter.  (The database
enforces this; the embedding states it explicitly because thread
updates are keyed by `id`.) -/
def ThreadsWF (s : Store) : Prop :=
  (∀ t ∈ s.threads, t.id < s.next_thread_id) ∧
    s.threads.Pairwise (fun a b => a.id ≠ b.id)

/-- Modelled from the spec: the `EnsureValid` refresh condition
"if `expiry <= now + safetyMargin`" (spec section 4.2).  No safety
margin occurs anywhere in src; this definition exists to be compared
with the source's check `account.token_expiry < datetime.utcnow()`. -/
def spec_needs_refresh (safetyMargin now expiry : Int) : Bool :=
  decide (expiry ≤ now + safetyMargin)

/-! Concrete fixtures used by counterexamples and witnesses. -/

/-- An empty store. -/
def store0 : Store :=
  { threads := [], messages := [], attachments := [], next_thread_id := 1, next_message_id := 1 }

/-- An active Gmail account with no stored cursor, an unexpired
(null-expiry) token and a stored encrypted refresh token. -/
def account0 : EmailAccount :=
  { id := 1
    provider := .gmail
    access_token := "stale"
    encrypted_refresh_token := some "ct"
    token_expiry := none
    sync_state := none
    last_synced_at := none
    is_active := true }

def db0 : DbState := { account := account0, store := store0 }

/-- One plain raw Gmail record. -/
def rawA : GmailRaw :=
  { id := "m1"
    threadId := "t1"
    snippet := some "snipA"
    headers := [("From", "a@x"), ("To", "b@y"), ("Subject", "hi"), ("Date", "dA")]
    parts := none
    bodyData := some "bodyA" }

/-- Baseline external behaviour: clock 100, both date parsers resolve
to 50, refresh succeeds without rotation, the Gmail history endpoint
rejects any cursor (forcing full fetch) and the full fetch returns one
record with fresh history id "h2". -/
def envBase : SyncEnv :=
  { now := 100
    parseDate := fun _ => some 50
    parseIso := fun _ => some 50
    refresh_call := .ok { access_token := "fresh", expires_in := some 3600, refresh_token := none }
    gmail := { history_list := .error (), full_fetch := .ok ([rawA], some "h2") }
    outlook :=
      { delta_call := fun _ => .error ()
        full_call := .ok { value := [], delta_link := none, next_link := none } } }

/-- A store already holding one thread ("t1", last message at 10) and
one message "m0" in it. -/
def store3 : Store :=
  { threads :=
      [{ id := 1, account_id := 1, provider_thread_id := "t1", subject := "hi",
         snippet := "old", last_message_at := 10 }]
    messages :=
      [{ id := 1, thread_id := 1, provider_message_id := "m0", from_addr := "a@x",
         to_addrs := ["b@y"], cc_addrs := [], subject := "hi", date := 10,
         body_text := "", body_html := "", has_attachments := false }]
    attachments := []
    next_thread_id := 2
    next_message_id := 2 }

/-- Scenario of claim C3 on the Gmail path: the account holds a stored
cursor and the store already has the thread of the incoming record. -/
def db3 : DbState := { account := { account0 with sync_state := some "h1" }, store := store3 }

/-- Gmail API accepting the stored cursor and returning exactly one
new record ("m1", thread "t1") through the history endpoint. -/
def env3 : SyncEnv :=
  { envBase with gmail := { history_list := .ok [[rawA]], full_fetch := .error () } }

/-- An account whose token expired at 0 (clock is 100). -/
def db4 : DbState := { account := { account0 with token_expiry := some 0 }, store := store0 }

/-- External behaviour where the provider rejects the refresh
(invalid_grant): `refresh_call` raises. -/
def env4 : SyncEnv := { envBase with refresh_call := .error () }

/-- An account whose token expired at 0 and whose encrypted refresh
token is null. -/
def db10 : DbState :=
  { account := { account0 with token_expiry := some 0, encrypted_refresh_token := none }
    store := store0 }

/-- An account whose token expires at 105 while the clock is 100:
within a safety margin of 10 of expiry, but not yet expired. -/
def db7 : DbState := { account := { account0 with token_expiry := some 105 }, store := store0 }

/-- A raw Gmail record with no headers at all. -/
def raw8 : GmailRaw :=
  { id := "m8", threadId := "t8", snippet := none, headers := [], parts := none, bodyData := none }

/-- A raw Outlook record with every optional field missing. -/
def oraw8 : OutlookRaw :=
  { id := "om8", conversationId := none, receivedDateTime := none, sentDateTime := none,
    toRecipients := none, ccRecipients := none, bccRecipients := none, fromAddress := none,
    bodyContentType := none, bodyContent := none, subject := none, bodyPreview := none,
    hasAttachments := none, attachments := none }

/-- A Graph API that rejects every stored delta link (non-2xx) while
the full delta query succeeds with a fresh delta link "d2". -/
def api9 : OutlookApi :=
  { delta_call := fun _ => .error ()
    full_call := .ok { value := [], delta_link := some "d2", next_link := none } }

/-- External behaviour where every Gmail fetch path raises. -/
def envErr : SyncEnv :=
  { envBase with gmail := { history_list := Except.error (), full_fetch := Except.error () } }

/-! Theorems.  First a kit of lemmas about the shared ingestion body
`store_parsed_message`, then the claim theorems. -/

/-- A record whose `provider_message_id` is already stored is a strict
no-op. -/
lemma store_parsed_noop (aid : Nat) (p : ParsedMessage) (s : Store)
    (h : hasMsg p.provider_message_id s = true) :
    store_parsed_message aid p s = s := by
  unfold store_parsed_message
  simp [h]

/-- Either the dedup check fires and nothing changes, or exactly one
Message row carrying the record's `provider_message_id` is appended. -/
lemma store_parsed_messages_cases (aid : Nat) (p : ParsedMessage) (s : Store) :
    (hasMsg p.provider_message_id s = true ∧ store_parsed_message aid p s = s) ∨
    (hasMsg p.provider_message_id s = false ∧
      ∃ m : MessageRow, m.provider_message_id = p.provider_message_id ∧
        (store_parsed_message aid p s).messages = s.messages ++ [m]) := by
  by_cases h : hasMsg p.provider_message_id s
  · exact Or.inl ⟨h, store_parsed_noop aid p s h⟩
  · refine Or.inr ⟨by simpa using h, ?_⟩
    unfold store_parsed_message insert_message_rows
    simp only [h, Bool.false_eq_true, if_false]
    cases hf : s.threads.find? (fun t =>
        t.account_id == aid && t.provider_thread_id == p.thread_id) with
    | none => exact ⟨_, rfl, rfl⟩
    | some t => exact ⟨_, rfl, rfl⟩

lemma hasMsg_true_iff_pos (q : String) (s : Store) :
    hasMsg q s = true ↔ 0 < countMsg q s := by
  unfold hasMsg countMsg
  constructor
  · intro h
    obtain ⟨m, hm, hp⟩ := List.any_eq_true.mp h
    exact List.length_pos.mpr (List.ne_nil_of_mem (List.mem_filter.mpr ⟨hm, hp⟩))
  · intro h
    obtain ⟨m, hm⟩ := List.exists_mem_of_length_pos h
    exact List.any_eq_true.mpr ⟨m, (List.mem_filter.mp hm).1, (List.mem_filter.mp hm).2⟩

lemma countMsg_eq_zero_of_hasMsg_false (q : String) (s : Store)
    (h : hasMsg q s = false) : countMsg q s = 0 := by
  by_contra hne
  have : hasMsg q s = true := (hasMsg_true_iff_pos q s).mpr (Nat.pos_of_ne_zero hne)
  rw [this] at h
  cases h

/-- Counting through an append of a single message row. -/
lemma countMsg_append_single (q : String) (s s2 : Store) (m : MessageRow)
    (hm : s2.messages = s.messages ++ [m]) :
    countMsg q s2 = countMsg q s + (if m.provider_message_id == q then 1 else 0) := by
  unfold countMsg
  rw [hm, List.filter_append, List.length_append]
  cases hq : m.provider_message_id == q <;> simp [List.filter, hq]

lemma store_parsed_hasMsg_self (aid : Nat) (p : ParsedMessage) (s : Store) :
    hasMsg p.provider_message_id (store_parsed_message aid p s) = true := by
  rcases store_parsed_messages_cases aid p s with ⟨h, he⟩ | ⟨_h, m, hpid, hmsgs⟩
  · rw [he]; exact h
  · unfold hasMsg
    rw [hmsgs, List.any_append]
    simp [List.any, hpid]

lemma store_parsed_hasMsg_mono (aid : Nat) (p : ParsedMessage) (s : Store) (q : String)
    (h : hasMsg q s = true) : hasMsg q (store_parsed_message aid p s) = true := by
  rcases store_parsed_messages_cases aid p s with ⟨_h, he⟩ | ⟨_h, m, _hpid, hmsgs⟩
  · rw [he]; exact h
  · unfold hasMsg at h ⊢
    rw [hmsgs, List.any_append, h, Bool.true_or]

lemma store_parsed_countMsg_le (aid : Nat) (p : ParsedMessage) (s : Store) (q : String) :
    countMsg q (store_parsed_message aid p s) ≤ max (countMsg q s) 1 := by
  rcases store_parsed_messages_cases aid p s with ⟨_h, he⟩ | ⟨h, m, hpid, hmsgs⟩
  · rw [he]; exact le_max_left _ _
  · rw [countMsg_append_single q s _ m hmsgs]
    cases hq : m.provider_message_id == q
    · simpa using le_max_left (countMsg q s) 1
    · have hqe : q = p.provider_message_id := by
        have := beq_iff_eq.mp hq
        rw [← this, hpid]
      rw [hqe, countMsg_eq_zero_of_hasMsg_false _ _ h]
      simp

section FoldLemmas

variable {α : Type} (aid : Nat) (f : α → ParsedMessage)

lemma foldl_store_parsed_hasMsg_mono (L : List α) (s : Store) (q : String)
    (h : hasMsg q s = true) :
    hasMsg q (L.foldl (fun st x => store_parsed_message aid (f x) st) s) = true := by
  induction L generalizing s with
  | nil => exact h
  | cons x L ih => exact ih _ (store_parsed_hasMsg_mono aid (f x) s q h)

lemma foldl_store_parsed_hasMsg_self (L : List α) (s : Store) (x : α) (hx : x ∈ L) :
    hasMsg (f x).provider_message_id
      (L.foldl (fun st y => store_parsed_message aid (f y) st) s) = true := by
  induction L generalizing s with
  | nil => cases hx
  | cons y L ih =>
    rcases List.mem_cons.mp hx with rfl | hx'
    · exact foldl_store_parsed_hasMsg_mono aid f L _ _
        (store_parsed_hasMsg_self aid (f x) s)
    · exact ih _ hx'

lemma foldl_store_parsed_noop (L : List α) (s : Store)
    (h : ∀ x ∈ L, hasMsg (f x).provider_message_id s = true) :
    L.foldl (fun st x => store_parsed_message aid (f x) st) s = s := by
  induction L with
  | nil => rfl
  | cons x L ih =>
    have hx := store_parsed_noop aid (f x) s (h x (List.mem_cons_self x L))
    simp only [List.foldl_cons, hx]
    exact ih (fun y hy => h y (List.mem_cons_of_mem x hy))

lemma foldl_store_parsed_countMsg_le (L : List α) (s : Store) (q : String) :
    countMsg q (L.foldl (fun st x => store_parsed_message aid (f x) st) s)
      ≤ max (countMsg q s) 1 := by
  induction L generalizing s with
  | nil => exact le_max_left _ _
  | cons x L ih =>
    refine le_trans (ih (store_parsed_message aid (f x) s)) ?_
    have := store_parsed_countMsg_le aid (f x) s q
    have hmax : max (countMsg q (store_parsed_message aid (f x) s)) 1
        ≤ max (max (countMsg q s) 1) 1 := max_le_max this (le_refl 1)
    simpa [max_assoc] using hmax

end FoldLemmas

/-- Full characterization of one sync call on an active, found Gmail
account that needs no token refresh and whose fetch resolves to a full
result: the pipeline folds every record through
`process_gmail_message`, commits the rows together with the (truthy)
new cursor, then stamps `last_synced_at` and commits again. -/
lemma sync_gmail_full_run (env : SyncEnv) (b : Bool) (d0 : DbState)
    (L : List GmailRaw) (h : Option String)
    (hact : d0.account.is_active = true)
    (hprov : d0.account.provider = EmailProvider.gmail)
    (hexp : d0.account.token_expiry = none)
    (hfetch : GmailService.fetch_messages env.gmail d0.account.sync_state
      = Except.ok (GmailFetchResult.full L h)) :
    sync_account_async env true b d0 =
      (let st' := L.foldl
        (fun st m => process_gmail_message env.parseDate env.now m d0.account.id st) d0.store
      let a1 := if pyTruthyStrOpt h then
          { d0.account with sync_state := some (h.getD "") } else d0.account
      let a2 := { a1 with last_synced_at := some env.now }
      { status := .success
        reason := none
        sess :=
          { pending := { account := a2, store := st' }
            durable := { account := a2, store := st' }
            commits := [{ account := a1, store := st' }, { account := a2, store := st' }] }
        refresh_attempted := false
        fetch_attempted := true
        fetch_token := some d0.account.access_token }) := by
  unfold sync_account_async sync_dispatch sync_gmail_account needs_refresh
  simp only [hact, hprov, hexp, Bool.and_true, Bool.and_self, Bool.not_true,
    Bool.false_eq_true, if_false, hfetch]
  by_cases hh : pyTruthyStrOpt h = true <;>
    simp [hh, Sess.commit, Sess.withAccount, Sess.withStore] <;>
    exact ⟨hprov, hexp, hact⟩

lemma GmailService.parse_message_pid (pd : String → Option Int) (now : Int) (m : GmailRaw) :
    (GmailService.parse_message pd now m).provider_message_id = m.id := rfl

/-- When the history endpoint rejects every cursor and the full fetch
succeeds, `fetch_messages` resolves to the same full result whatever
cursor is stored. -/
lemma gmail_fetch_const (api : GmailApi) (L : List GmailRaw) (h : Option String)
    (hhist : api.history_list = Except.error ())
    (hfull : api.full_fetch = Except.ok (L, h)) :
    ∀ x, GmailService.fetch_messages api x = Except.ok (GmailFetchResult.full L h) := by
  intro x
  unfold GmailService.fetch_messages
  cases ht : pyTruthyStrOpt x <;> simp [ht, hhist, hfull, Except.map]

/-- Claim C1 (confirmed): running the same raw record set through the
sync twice leaves the stored rows exactly as after the first run, and
each fetched record ends up as exactly one Message row per
`providerMessageId` — a record whose id already exists in the store is
skipped as an idempotent no-op. -/
theorem sync_twice_one_message_per_provider_id
    (env : SyncEnv) (b : Bool) (d0 : DbState) (L : List GmailRaw) (h : Option String)
    (hact : d0.account.is_active = true)
    (hprov : d0.account.provider = EmailProvider.gmail)
    (hexp : d0.account.token_expiry = none)
    (hhist : env.gmail.history_list = Except.error ())
    (hfull : env.gmail.full_fetch = Except.ok (L, h)) :
    ((sync_account_async env true b
        ((sync_account_async env true b d0).sess.durable)).sess.durable.store
      = (sync_account_async env true b d0).sess.durable.store) ∧
    (∀ m ∈ L, countMsg m.id d0.store = 0 →
      countMsg m.id ((sync_account_async env true b d0).sess.durable.store) = 1) := by
  have hfa := gmail_fetch_const env.gmail L h hhist hfull
  have hrun1 := sync_gmail_full_run env b d0 L h hact hprov hexp (hfa _)
  rw [hrun1]
  simp only
  constructor
  · -- second run: every provider id is already stored, so the fold is a no-op
    have key : ∀ (d1 : DbState), d1.account.is_active = true →
        d1.account.provider = EmailProvider.gmail → d1.account.token_expiry = none →
        (∀ m ∈ L, hasMsg
          (GmailService.parse_message env.parseDate env.now m).provider_message_id
          d1.store = true) →
        (sync_account_async env true b d1).sess.durable.store = d1.store := by
      intro d1 h1 h2 h3 h4
      rw [sync_gmail_full_run env b d1 L h h1 h2 h3 (hfa _)]
      simp only [process_gmail_message]
      exact foldl_store_parsed_noop _ _ L _ h4
    by_cases hh : pyTruthyStrOpt h = true <;>
    · simp only [hh, if_true, Bool.false_eq_true, if_false]
      exact key _ hact hprov hexp (fun m hm =>
        foldl_store_parsed_hasMsg_self _ (fun x =>
          GmailService.parse_message env.parseDate env.now x) L d0.store m hm)
  · intro m hm hcount
    by_cases hh : pyTruthyStrOpt h = true <;>
    · simp only [hh, if_true, Bool.false_eq_true, if_false,
        process_gmail_message]
      have hpos : 0 < countMsg m.id
          (L.foldl (fun st x => store_parsed_message d0.account.id
            (GmailService.parse_message env.parseDate env.now x) st) d0.store) := by
        refine (hasMsg_true_iff_pos _ _).mp ?_
        exact foldl_store_parsed_hasMsg_self _ (fun x =>
          GmailService.parse_message env.parseDate env.now x) L d0.store m hm
      have hle : countMsg m.id
          (L.foldl (fun st x => store_parsed_message d0.account.id
            (GmailService.parse_message env.parseDate env.now x) st) d0.store)
          ≤ max (countMsg m.id d0.store) 1 := by
        exact foldl_store_parsed_countMsg_le _ (fun x =>
          GmailService.parse_message env.parseDate env.now x) L d0.store m.id
      rw [hcount] at hle
      have hle1 : max 0 1 = 1 := rfl
      rw [hle1] at hle
      omega

theorem sync_twice_one_message_per_provider_id_witness :
    db0.account.is_active = true ∧
    countMsg "m1" db0.store = 0 ∧
    ((sync_account_async envBase true false
        ((sync_account_async envBase true false db0).sess.durable)).sess.durable.store
      = (sync_account_async envBase true false db0).sess.durable.store) ∧
    countMsg "m1" ((sync_account_async envBase true false db0).sess.durable.store) = 1 :=
  ⟨rfl, by decide,
   (sync_twice_one_message_per_provider_id envBase false db0 [rawA] (some "h2")
      rfl rfl rfl rfl rfl).1,
   (sync_twice_one_message_per_provider_id envBase false db0 [rawA] (some "h2")
      rfl rfl rfl rfl rfl).2 rawA (by simp) (by decide)⟩

/-- Whatever `refresh_token` does — deactivate without committing,
refresh and commit, or swallow a refresh failure and commit — the
in-session account keeps its `sync_state` and `last_synced_at`, and
the step either commits nothing or exactly its own pending state. -/
lemma refresh_token_step_shape (env : SyncEnv) (s : Sess) :
    ∃ a : EmailAccount,
      a.sync_state = s.pending.account.sync_state ∧
      a.last_synced_at = s.pending.account.last_synced_at ∧
      (refresh_token_step env s = s.withAccount a ∨
       refresh_token_step env s = (s.withAccount a).commit) := by
  unfold refresh_token_step
  cases htt : pyTruthyStrOpt s.pending.account.encrypted_refresh_token
  · simp only [htt, Bool.not_false, if_true]
    exact ⟨{ s.pending.account with is_active := false }, rfl, rfl, Or.inl rfl⟩
  · simp only [htt, Bool.not_true, Bool.false_eq_true, if_false]
    cases hrc : env.refresh_call with
    | ok t =>
      exact ⟨{ s.pending.account with
          access_token := t.access_token
          token_expiry := some (env.now + t.expires_in.getD 3600)
          encrypted_refresh_token :=
            match t.refresh_token with
            | some rt => some (encryption_encrypt rt)
            | none => s.pending.account.encrypted_refresh_token },
        rfl, rfl, Or.inr rfl⟩
    | error e =>
      exact ⟨{ s.pending.account with is_active := false }, rfl, rfl, Or.inr rfl⟩

/-- The refresh step never touches the stored cursor. -/
lemma sync_post_refresh_sync_state (env : SyncEnv) (d0 : DbState) :
    (if needs_refresh env d0.account = true then
        refresh_token_step env { pending := d0, durable := d0, commits := [] }
      else { pending := d0, durable := d0, commits := [] }).pending.account.sync_state
      = d0.account.sync_state := by
  cases hn : needs_refresh env d0.account
  · simp [hn]
  · simp only [hn, if_true]
    obtain ⟨a, hss, _hls, h | h⟩ := refresh_token_step_shape env
      { pending := d0, durable := d0, commits := [] }
    · rw [h]; exact hss
    · rw [h]; exact hss

/-- An exception from the provider fetch aborts the batch: the sync
re-raises, and every reachable post-state keeps the store rows, the
cursor, and `last_synced_at` at their pre-sync values (only a
committed step-2 credential refresh may persist, and it touches none
of those fields). -/
lemma sync_fetch_error_aborts (env : SyncEnv) (b : Bool) (d0 : DbState)
    (hact : d0.account.is_active = true)
    (herr : sync_dispatch env d0.account.provider
      (if needs_refresh env d0.account = true then
        refresh_token_step env { pending := d0, durable := d0, commits := [] }
      else { pending := d0, durable := d0, commits := [] }) = Except.error ()) :
    (sync_account_async env true b d0).status = SyncStatus.errorRaised ∧
    ∀ st ∈ reachable_states d0 (sync_account_async env true b d0),
      st.store = d0.store ∧ st.account.sync_state = d0.account.sync_state ∧
      st.account.last_synced_at = d0.account.last_synced_at := by
  unfold sync_account_async
  simp only [hact, Bool.and_true, Bool.and_self, Bool.not_true, Bool.false_eq_true,
    if_false, herr]
  refine ⟨trivial, ?_⟩
  intro st hst
  simp only [reachable_states, Sess.rollback, List.mem_cons] at hst
  rcases hst with rfl | hst'
  · simp
  · revert hst'
    cases hn : needs_refresh env d0.account
    · simp [hn]
    · simp only [hn, if_true]
      obtain ⟨a, hss, hls, h | h⟩ := refresh_token_step_shape env
        { pending := d0, durable := d0, commits := [] }
      · rw [h]
        simp [Sess.withAccount]
      · rw [h]
        simp only [Sess.withAccount, Sess.commit, List.nil_append, List.mem_singleton]
        intro hst'
        subst hst'
        exact ⟨rfl, hss, hls⟩

/-- Claim C2 (amended): within one sync call the thread/message/
attachment inserts and the cursor advance are committed together — no
reachable crash state has one without the other — but `last_synced_at`
is stamped in a separate, later commit, so a reachable crash state has
the inserts and the cursor durable while `last_synced_at` still holds
its pre-sync value (the final durable state carries the new
`last_synced_at`); and an error raised by the provider fetch aborts
the batch — the sync re-raises and every reachable post-state keeps
the rows, the cursor and `last_synced_at` unchanged, whatever the
step-2 refresh did.  (An error during the step-2 refresh itself does
NOT abort the batch: the counterexample exhibits it being swallowed.) -/
theorem sync_batch_commit_granularity :
    (∀ (env : SyncEnv) (b : Bool) (d0 : DbState) (raw : GmailRaw) (hs : String),
      d0.account.is_active = true →
      d0.account.provider = EmailProvider.gmail →
      d0.account.token_expiry = none →
      GmailService.fetch_messages env.gmail d0.account.sync_state
        = Except.ok (GmailFetchResult.full [raw] (some hs)) →
      hs ≠ "" →
      hasMsg raw.id d0.store = false →
      d0.account.sync_state ≠ some hs →
      ((∀ st ∈ reachable_states d0 (sync_account_async env true b d0),
          (0 < countMsg raw.id st.store ↔ st.account.sync_state = some hs)) ∧
        (∃ st ∈ reachable_states d0 (sync_account_async env true b d0),
          0 < countMsg raw.id st.store ∧
          st.account.last_synced_at = d0.account.last_synced_at) ∧
        (sync_account_async env true b d0).sess.durable.account.last_synced_at
          = some env.now)) ∧
    (∀ (env : SyncEnv) (b : Bool) (d0 : DbState),
      d0.account.is_active = true →
      ((d0.account.provider = EmailProvider.gmail →
        GmailService.fetch_messages env.gmail d0.account.sync_state = Except.error () →
        ((sync_account_async env true b d0).status = SyncStatus.errorRaised ∧
          ∀ st ∈ reachable_states d0 (sync_account_async env true b d0),
            st.store = d0.store ∧ st.account.sync_state = d0.account.sync_state ∧
            st.account.last_synced_at = d0.account.last_synced_at)) ∧
       (d0.account.provider = EmailProvider.outlook →
        OutlookService.fetch_messages env.outlook d0.account.sync_state = Except.error () →
        ((sync_account_async env true b d0).status = SyncStatus.errorRaised ∧
          ∀ st ∈ reachable_states d0 (sync_account_async env true b d0),
            st.store = d0.store ∧ st.account.sync_state = d0.account.sync_state ∧
            st.account.last_synced_at = d0.account.last_synced_at)))) := by
  constructor
  swap
  · intro env b d0 hact
    constructor
    · intro hprov hfe
      refine sync_fetch_error_aborts env b d0 hact ?_
      unfold sync_dispatch
      rw [hprov]
      show sync_gmail_account env _ = Except.error ()
      unfold sync_gmail_account
      simp only
      rw [sync_post_refresh_sync_state env d0, hfe]
    · intro hprov hfe
      refine sync_fetch_error_aborts env b d0 hact ?_
      unfold sync_dispatch
      rw [hprov]
      show sync_outlook_account env _ = Except.error ()
      unfold sync_outlook_account
      simp only
      rw [sync_post_refresh_sync_state env d0, hfe]
  intro env b d0 raw hs hact hprov hexp hfetch hh hfresh hcur
  have hrun := sync_gmail_full_run env b d0 [raw] (some hs) hact hprov hexp hfetch
  rw [hrun]
  have htr : pyTruthyStrOpt (some hs) = true := by simp [pyTruthyStrOpt, hh]
  simp only [htr, if_true, reachable_states, Option.getD]
  have hpos : 0 < countMsg raw.id
      ([raw].foldl (fun st m =>
        process_gmail_message env.parseDate env.now m d0.account.id st) d0.store) := by
    refine (hasMsg_true_iff_pos _ _).mp ?_
    simp only [process_gmail_message]
    exact foldl_store_parsed_hasMsg_self _ (fun x =>
      GmailService.parse_message env.parseDate env.now x) [raw] d0.store raw
      (List.mem_cons_self raw [])
  refine ⟨?_, ?_, ?_⟩
  · intro st hst
    simp only [List.mem_cons, List.not_mem_nil, or_false] at hst
    rcases hst with rfl | rfl | rfl
    · constructor
      · intro hp
        rw [countMsg_eq_zero_of_hasMsg_false _ _ hfresh] at hp
        cases hp
      · intro hc
        exact absurd hc hcur
    · exact ⟨fun _ => rfl, fun _ => hpos⟩
    · exact ⟨fun _ => rfl, fun _ => hpos⟩
  · refine ⟨{ account := { d0.account with sync_state := some ((some hs).getD "") }
              store := [raw].foldl (fun st m =>
                process_gmail_message env.parseDate env.now m d0.account.id st) d0.store },
            ?_, hpos, rfl⟩
    simp only [List.mem_cons]
    right; left; rfl
  · trivial

theorem sync_batch_commit_granularity_witness :
    hasMsg "m1" db0.store = false ∧ db0.account.sync_state ≠ some "h2" ∧
    (∃ st ∈ reachable_states db0 (sync_account_async envBase true false db0),
      0 < countMsg "m1" st.store ∧
      st.account.last_synced_at = db0.account.last_synced_at) ∧
    (sync_account_async envBase true false db0).sess.durable.account.last_synced_at
      = some 100 ∧
    GmailService.fetch_messages envErr.gmail db0.account.sync_state = Except.error () ∧
    (sync_account_async envErr true false db0).status = SyncStatus.errorRaised :=
  ⟨by decide, by decide,
   (sync_batch_commit_granularity.1 envBase false db0 rawA "h2" rfl rfl rfl rfl
      (by decide) (by decide) (by decide)).2.1,
   (sync_batch_commit_granularity.1 envBase false db0 rawA "h2" rfl rfl rfl rfl
      (by decide) (by decide) (by decide)).2.2,
   rfl,
   ((sync_batch_commit_granularity.2 envErr false db0 rfl).1 rfl rfl).1⟩

/-- Shape of the `threads` table across one ingestion: unchanged, one
appended thread keyed by the fresh autoincrement id, or a by-id update
of the found thread raising `last_message_at` to the (strictly
greater) incoming date. -/
lemma store_parsed_threads_shape (aid : Nat) (p : ParsedMessage) (s : Store) :
    ((store_parsed_message aid p s).threads = s.threads ∧
      (store_parsed_message aid p s).next_thread_id = s.next_thread_id) ∨
    ((store_parsed_message aid p s).threads = s.threads ++
        [{ id := s.next_thread_id, account_id := aid, provider_thread_id := p.thread_id,
           subject := p.subject, snippet := p.snippet, last_message_at := p.date }] ∧
      (store_parsed_message aid p s).next_thread_id = s.next_thread_id + 1) ∨
    (∃ t, s.threads.find? (fun u =>
          u.account_id == aid && u.provider_thread_id == p.thread_id) = some t ∧
      p.date > t.last_message_at ∧
      (store_parsed_message aid p s).threads = s.threads.map (fun u =>
        if u.id == t.id then
          { u with last_message_at := p.date, snippet := p.snippet } else u) ∧
      (store_parsed_message aid p s).next_thread_id = s.next_thread_id) := by
  unfold store_parsed_message insert_message_rows
  by_cases hd : hasMsg p.provider_message_id s
  · left; simp [hd]
  · simp only [hd, Bool.false_eq_true, if_false]
    cases hf : s.threads.find? (fun t =>
        t.account_id == aid && t.provider_thread_id == p.thread_id) with
    | none => right; left; exact ⟨rfl, rfl⟩
    | some t =>
      by_cases hgt : p.date > t.last_message_at
      · right; right
        exact ⟨t, rfl, hgt, by simp [hgt], rfl⟩
      · left
        simp [hgt]

/-- In a list of threads with pairwise-distinct primary keys, equal
ids force equal rows. -/
lemma uniq_thread_id_eq (l : List ThreadRow)
    (hp : l.Pairwise (fun a b => a.id ≠ b.id)) :
    ∀ u ∈ l, ∀ v ∈ l, u.id = v.id → u = v := by
  induction l with
  | nil => intro u hu; cases hu
  | cons a l ih =>
    rw [List.pairwise_cons] at hp
    intro u hu v hv he
    rcases List.mem_cons.mp hu with rfl | hu' <;> rcases List.mem_cons.mp hv with rfl | hv'
    · rfl
    · exact absurd he (hp.1 v hv')
    · exact absurd he.symm (hp.1 u hu')
    · exact ih hp.2 u hu' v hv' he

lemma store_parsed_threads_wf (aid : Nat) (p : ParsedMessage) (s : Store)
    (hwf : ThreadsWF s) : ThreadsWF (store_parsed_message aid p s) := by
  obtain ⟨hbound, hpair⟩ := hwf
  rcases store_parsed_threads_shape aid p s with ⟨ht, hn⟩ | ⟨ht, hn⟩ | ⟨t, _hf, _hgt, ht, hn⟩
  · exact ⟨by rw [ht, hn]; exact hbound, by rw [ht]; exact hpair⟩
  · constructor
    · rw [ht, hn]
      intro u hu
      rcases List.mem_append.mp hu with hu' | hu'
      · exact Nat.lt_succ_of_lt (hbound u hu')
      · rcases List.mem_singleton.mp hu' with rfl
        exact Nat.lt_succ_self _
    · rw [ht]
      refine List.pairwise_append.mpr ⟨hpair, List.pairwise_singleton _ _, ?_⟩
      intro a ha bb hb
      rcases List.mem_singleton.mp hb with rfl
      exact Nat.ne_of_lt (hbound a ha)
  · have hid : ∀ u : ThreadRow, ((fun u =>
        if u.id == t.id then
          { u with last_message_at := p.date, snippet := p.snippet } else u) u).id = u.id := by
      intro u
      by_cases hu : u.id == t.id <;> simp [hu]
    constructor
    · rw [ht, hn]
      intro u hu
      obtain ⟨v, hv, rfl⟩ := List.mem_map.mp hu
      rw [hid v]
      exact hbound v hv
    · rw [ht]
      refine List.pairwise_map.mpr ?_
      refine hpair.imp ?_
      intro a bb hab
      rw [hid a, hid bb]
      exact hab

lemma store_parsed_threads_len (aid : Nat) (p : ParsedMessage) (s : Store) :
    s.threads.length ≤ (store_parsed_message aid p s).threads.length := by
  rcases store_parsed_threads_shape aid p s with ⟨ht, _⟩ | ⟨ht, _⟩ | ⟨t, _, _, ht, _⟩ <;>
    simp [ht]

/-- One ingestion never lowers any stored thread's `last_message_at`
and keeps every thread's primary key in place. -/
lemma store_parsed_getD_mono (aid : Nat) (p : ParsedMessage) (s : Store)
    (hwf : ThreadsWF s) (j : Nat) (hj : j < s.threads.length) :
    ((store_parsed_message aid p s).threads.getD j default).id
        = (s.threads.getD j default).id ∧
    (s.threads.getD j default).last_message_at
        ≤ ((store_parsed_message aid p s).threads.getD j default).last_message_at := by
  rcases store_parsed_threads_shape aid p s with ⟨ht, _⟩ | ⟨ht, _⟩ | ⟨t, hf, hgt, ht, _⟩
  · rw [ht]; exact ⟨rfl, le_refl _⟩
  · rw [ht, List.getD_append _ _ _ _ hj]; exact ⟨rfl, le_refl _⟩
  · have hmap : (s.threads.map (fun u =>
        if u.id == t.id then
          { u with last_message_at := p.date, snippet := p.snippet } else u)).getD j default
        = (fun u => if u.id == t.id then
            { u with last_message_at := p.date, snippet := p.snippet } else u)
          (s.threads.getD j default) := by
      rw [List.getD_eq_getElem _ _ (by simpa using hj),
        List.getD_eq_getElem _ _ hj, List.getElem_map]
    rw [ht, hmap]
    by_cases hu : (s.threads.getD j default).id == t.id
    · have humem : s.threads.getD j default ∈ s.threads := by
        rw [List.getD_eq_getElem _ _ hj]
        exact List.getElem_mem _
      have hut : s.threads.getD j default = t :=
        uniq_thread_id_eq s.threads hwf.2 _ humem t
          (List.mem_of_find?_eq_some hf) (beq_iff_eq.mp hu)
      simp only [hu, if_true]
      exact ⟨trivial, by rw [hut]; exact le_of_lt hgt⟩
    · rw [Bool.not_eq_true] at hu
      simp only [hu, Bool.false_eq_true, if_false]
      exact ⟨trivial, le_refl _⟩

section FoldThreadLemmas

variable {α : Type} (aid : Nat) (f : α → ParsedMessage)

lemma foldl_store_parsed_threads_wf (L : List α) (s : Store) (hwf : ThreadsWF s) :
    ThreadsWF (L.foldl (fun st x => store_parsed_message aid (f x) st) s) := by
  induction L generalizing s with
  | nil => exact hwf
  | cons x L ih => exact ih _ (store_parsed_threads_wf aid (f x) s hwf)

lemma foldl_store_parsed_threads_len (L : List α) (s : Store) :
    s.threads.length ≤
      (L.foldl (fun st x => store_parsed_message aid (f x) st) s).threads.length := by
  induction L generalizing s with
  | nil => exact le_refl _
  | cons x L ih =>
    exact le_trans (store_parsed_threads_len aid (f x) s) (ih _)

/-- Across any sequence of ingestions, each stored thread keeps its
primary key at its position and its `last_message_at` never
decreases. -/
lemma foldl_store_parsed_getD_mono (L : List α) (s : Store) (hwf : ThreadsWF s)
    (j : Nat) (hj : j < s.threads.length) :
    ((L.foldl (fun st x => store_parsed_message aid (f x) st) s).threads.getD j default).id
        = (s.threads.getD j default).id ∧
    (s.threads.getD j default).last_message_at
        ≤ ((L.foldl (fun st x =>
            store_parsed_message aid (f x) st) s).threads.getD j default).last_message_at := by
  induction L generalizing s with
  | nil => exact ⟨rfl, le_refl _⟩
  | cons x L ih =>
    obtain ⟨hid1, hle1⟩ := store_parsed_getD_mono aid (f x) s hwf j hj
    obtain ⟨hid2, hle2⟩ := ih (store_parsed_message aid (f x) s)
      (store_parsed_threads_wf aid (f x) s hwf)
      (lt_of_lt_of_le hj (store_parsed_threads_len aid (f x) s))
    exact ⟨hid2.trans hid1, hle1.trans hle2⟩

end FoldThreadLemmas

/-- Ingesting a fresh record into an existing thread sets that
thread's `last_message_at` to `max existing incoming.date`. -/
lemma store_parsed_max_update (aid : Nat) (p : ParsedMessage) (s : Store) (t : ThreadRow)
    (hfresh : hasMsg p.provider_message_id s = false)
    (hf : s.threads.find? (fun u =>
        u.account_id == aid && u.provider_thread_id == p.thread_id) = some t) :
    ∃ t' ∈ (store_parsed_message aid p s).threads, t'.id = t.id ∧
      t'.last_message_at = max t.last_message_at p.date := by
  unfold store_parsed_message insert_message_rows
  simp only [hfresh, Bool.false_eq_true, if_false, hf]
  by_cases hgt : p.date > t.last_message_at
  · simp only [hgt, if_true]
    refine ⟨{ t with last_message_at := p.date, snippet := p.snippet }, ?_, rfl, ?_⟩
    · have := List.mem_map_of_mem (fun u =>
        if u.id == t.id then
          { u with last_message_at := p.date, snippet := p.snippet } else u)
        (List.mem_of_find?_eq_some hf)
      simpa using this
    · exact (max_eq_right (le_of_lt hgt)).symm
  · simp only [hgt, Bool.false_eq_true, if_false]
    exact ⟨t, List.mem_of_find?_eq_some hf, rfl,
      (max_eq_left (not_lt.mp hgt)).symm⟩

/-- Claim C6 (confirmed): for every Thread, `last_message_at` is
monotonically non-decreasing across any sequence of ingestions on both
provider paths, and ingesting a fresh record into an existing thread
updates it to `max existing incoming.date` — never regressing it. -/
theorem thread_last_message_at_monotone :
    (∀ (pd : String → Option Int) (now : Int) (aid : Nat) (L : List GmailRaw) (s : Store),
      ThreadsWF s → ∀ j, j < s.threads.length →
      ((L.foldl (fun st m => process_gmail_message pd now m aid st) s).threads.getD
          j default).id = (s.threads.getD j default).id ∧
      (s.threads.getD j default).last_message_at ≤
        ((L.foldl (fun st m =>
          process_gmail_message pd now m aid st) s).threads.getD j default).last_message_at) ∧
    (∀ (pf : String → Option Int) (now : Int) (aid : Nat) (L : List OutlookRaw) (s : Store),
      ThreadsWF s → ∀ j, j < s.threads.length →
      ((L.foldl (fun st m => process_outlook_message pf now m aid st) s).threads.getD
          j default).id = (s.threads.getD j default).id ∧
      (s.threads.getD j default).last_message_at ≤
        ((L.foldl (fun st m =>
          process_outlook_message pf now m aid st) s).threads.getD j default).last_message_at) ∧
    (∀ (aid : Nat) (p : ParsedMessage) (s : Store) (t : ThreadRow),
      hasMsg p.provider_message_id s = false →
      s.threads.find? (fun u =>
        u.account_id == aid && u.provider_thread_id == p.thread_id) = some t →
      ∃ t' ∈ (store_parsed_message aid p s).threads, t'.id = t.id ∧
        t'.last_message_at = max t.last_message_at p.date) := by
  refine ⟨?_, ?_, store_parsed_max_update⟩
  · intro pd now aid L s hwf j hj
    simp only [process_gmail_message]
    exact foldl_store_parsed_getD_mono aid
      (fun m => GmailService.parse_message pd now m) L s hwf j hj
  · intro pf now aid L s hwf j hj
    simp only [process_outlook_message]
    exact foldl_store_parsed_getD_mono aid
      (fun m => OutlookService.parse_message pf now m) L s hwf j hj

theorem thread_last_message_at_monotone_witness :
    ThreadsWF store3 ∧
    (store3.threads.getD 0 default).last_message_at ≤
      (([rawA].foldl (fun st m =>
        process_gmail_message (fun _ => some 50) 50 m 1 st) store3).threads.getD
          0 default).last_message_at ∧
    hasMsg "m1" store3 = false ∧
    (∃ t' ∈ (store_parsed_message 1
        (GmailService.parse_message (fun _ => some 50) 50 rawA) store3).threads,
      t'.id = 1 ∧ t'.last_message_at =
        max (10 : Int) (GmailService.parse_message (fun _ => some 50) 50 rawA).date) :=
  ⟨by unfold ThreadsWF; exact ⟨by decide, by decide⟩,
   (thread_last_message_at_monotone.1 (fun _ => some 50) 50 1 [rawA] store3
      (by unfold ThreadsWF; exact ⟨by decide, by decide⟩) 0 (by decide)).2,
   by decide,
   thread_last_message_at_monotone.2.2 1
     (GmailService.parse_message (fun _ => some 50) 50 rawA) store3
     { id := 1, account_id := 1, provider_thread_id := "t1", subject := "hi",
       snippet := "old", last_message_at := 10 }
     (by decide) (by decide)⟩

/-- Claim C3 (code bug, Gmail path): with a stored cursor that the
provider accepts, returning exactly one new record for the existing
thread through the history endpoint, the sync reports success but
ingests nothing — the Message count stays 1 (the claim requires +1)
and the thread row is untouched (`last_message_at` stays 10, the
claim requires it updated to the new message's date), because the
incremental branch of `sync_gmail_account` is a pass-stub. -/
theorem gmail_history_branch_ingests_nothing :
    (sync_account_async env3 true false db3).status = SyncStatus.success ∧
    (sync_account_async env3 true false db3).sess.durable.store.messages.length = 1 ∧
    (sync_account_async env3 true false db3).sess.durable.store.threads =
      [{ id := 1, account_id := 1, provider_thread_id := "t1", subject := "hi",
         snippet := "old", last_message_at := 10 }] := by
  decide

/-- Claim C4 (code bug): when the token refresh fails
(invalid_grant), `refresh_token` deactivates the account but swallows
the error, so the same sync call still performs the provider fetch
with the stale access token and — the fetch succeeding — returns
success; the claim requires status Failed and no further fetch. -/
theorem failed_refresh_still_fetches :
    (sync_account_async env4 true false db4).refresh_attempted = true ∧
    (sync_account_async env4 true false db4).status = SyncStatus.success ∧
    (sync_account_async env4 true false db4).sess.durable.account.is_active = false ∧
    (sync_account_async env4 true false db4).fetch_attempted = true ∧
    (sync_account_async env4 true false db4).fetch_token = some "stale" := by
  decide

/-- Counterexample to claim C5 as stated: with another sync for the
same account in flight (ghost flag `true`), the call does not return
Skipped — it executes the full pipeline and inserts the fetched
message, because the source acquires no per-account lease. -/
theorem concurrent_sync_executes_cex :
    (sync_account_async envBase true true db0).status ≠ SyncStatus.skipped ∧
    (sync_account_async envBase true true db0).status = SyncStatus.success ∧
    (sync_account_async envBase true true db0).sess.durable.store.messages.length =
      db0.store.messages.length + 1 := by
  decide

/-- Counterexample to claim C2 as stated, refuting both of its
clauses.  First run (clean sync): one call issues two commits; after
the first (a reachable crash state) the message insert and the cursor
advance are durable while `last_synced_at` still holds its old
value — so the cursor and `lastSyncedAt` are NOT persisted with the
inserts as a single atomic unit.  Second run (step-2 error): a refresh
failure — an error during steps 2–5 — does NOT abort the batch: the
error is swallowed, the batch commits (one Message row durable) and
the sync returns success. -/
theorem last_synced_at_separate_commit_cex :
    (sync_account_async envBase true false db0).sess.commits.length = 2 ∧
    ((sync_account_async envBase true false db0).sess.commits.getD 0 db0).store.messages.length
      = 1 ∧
    ((sync_account_async envBase true false db0).sess.commits.getD 0 db0).account.sync_state
      = some "h2" ∧
    ((sync_account_async envBase true false db0).sess.commits.getD 0 db0).account.last_synced_at
      = none ∧
    (sync_account_async envBase true false db0).sess.durable.account.last_synced_at
      = some 100 ∧
    (sync_account_async env4 true false db4).status = SyncStatus.success ∧
    (sync_account_async env4 true false db4).sess.durable.store.messages.length = 1 := by
  decide

/-- Counterexample to claim C7 as stated: a credential expiring at 105
with the clock at 100 is inside a safety margin of 10 (the
spec-modelled condition holds), yet the sync performs no refresh and
fetches with the unrefreshed access token — the source's check is
`token_expiry < utcnow()`, with no safety margin. -/
theorem safety_margin_not_refreshed_cex :
    spec_needs_refresh 10 100 105 = true ∧
    (sync_account_async envBase true false db7).refresh_attempted = false ∧
    (sync_account_async envBase true false db7).fetch_attempted = true ∧
    (sync_account_async envBase true false db7).sess.durable.account.access_token = "stale" := by
  decide

/-- Counterexample to claim C8 as stated: on a Gmail record with no
`To` header the parser yields `[""]` — a one-element list holding the
empty string (Python `"".split(",") == [""]`) — not the empty
recipient list the claim requires; a missing `Cc` does give `[]`. -/
theorem gmail_missing_to_cex :
    (GmailService.parse_message (fun _ => none) 7 raw8).to_addrs = [""] ∧
    (GmailService.parse_message (fun _ => none) 7 raw8).to_addrs ≠ ([] : List String) ∧
    (GmailService.parse_message (fun _ => none) 7 raw8).cc_addrs = [] := by
  decide

/-- Counterexample to claim C9 as stated: when the provider rejects a
stored Outlook delta link, `OutlookService.fetch_messages` raises
(`raise_for_status`) instead of falling back to a full fetch — the
error reaches the caller, although the full query would have
succeeded with a fresh cursor. -/
theorem outlook_stale_cursor_cex :
    OutlookService.fetch_messages api9 (some "stale") = Except.error () ∧
    OutlookService.fetch_messages api9 none =
      Except.ok { messages := [], delta_link := some "d2", next_link := none } := by
  exact ⟨rfl, rfl⟩

/-- Claim C9 (amended): only the Gmail adapter falls back
transparently — when the history endpoint rejects the stored cursor,
its fetch returns exactly what a cursor-less full fetch returns (same
shape, fresh cursor); the Outlook adapter instead propagates the
provider's rejection of a stored delta link to the caller. -/
theorem gmail_fallback_outlook_raises :
    (∀ (api : GmailApi) (h : Option String),
      api.history_list = Except.error () →
      GmailService.fetch_messages api h = GmailService.fetch_messages api none) ∧
    (∀ (oapi : OutlookApi) (d : String),
      d ≠ "" →
      oapi.delta_call d = Except.error () →
      OutlookService.fetch_messages oapi (some d) = Except.error ()) := by
  constructor
  · intro api h hh
    unfold GmailService.fetch_messages
    cases hp : pyTruthyStrOpt h <;> simp [hh, pyTruthyStrOpt]
  · intro oapi d hd0 hd
    unfold OutlookService.fetch_messages
    have : pyTruthyStrOpt (some d) = true := by
      simp [pyTruthyStrOpt, hd0]
    simp [this, hd, Except.map]

theorem gmail_fallback_outlook_raises_witness :
    GmailService.fetch_messages
        { history_list := Except.error (), full_fetch := Except.ok ([rawA], some "h2") }
        (some "h1")
      = GmailService.fetch_messages
        { history_list := Except.error (), full_fetch := Except.ok ([rawA], some "h2") } none ∧
    OutlookService.fetch_messages api9 (some "d1") = Except.error () :=
  ⟨gmail_fallback_outlook_raises.1 _ (some "h1") rfl,
   gmail_fallback_outlook_raises.2 api9 "d1" (by decide) rfl⟩

/-- Claim C8 (amended): both `parse_message` variants are total and
deterministic given the ingestion clock and the date-library outcome;
a missing `Cc` header (Gmail) and missing recipient lists (Outlook)
default to the empty list and an unparsable date falls back to the
ingestion-time clock — but a missing `To` header in the Gmail variant
defaults to `[""]` (one empty-string recipient, since Python
`"".split(",")` is `[""]`), not to the empty list. -/
theorem parse_message_defaults :
    (∀ (pd : String → Option Int) (now : Int) (m : GmailRaw),
      (headerLookup m.headers "To" = none →
        (GmailService.parse_message pd now m).to_addrs = [""]) ∧
      (headerLookup m.headers "Cc" = none →
        (GmailService.parse_message pd now m).cc_addrs = []) ∧
      (pd ((headerLookup m.headers "Date").getD "") = none →
        (GmailService.parse_message pd now m).date = now)) ∧
    (∀ (pf : String → Option Int) (now : Int) (m : OutlookRaw),
      (m.toRecipients = none → (OutlookService.parse_message pf now m).to_addrs = []) ∧
      (m.ccRecipients = none → (OutlookService.parse_message pf now m).cc_addrs = []) ∧
      (pf (pyReplaceChar 'Z' "+00:00"
            (m.receivedDateTime.getD (m.sentDateTime.getD ""))) = none →
        (OutlookService.parse_message pf now m).date = now)) := by
  constructor
  · intro pd now m
    refine ⟨fun hTo => ?_, fun hCc => ?_, fun hDate => ?_⟩
    · simp [GmailService.parse_message, hTo, pySplit, splitOnCharList]
    · simp [GmailService.parse_message, hCc]
    · simp [GmailService.parse_message, hDate]
  · intro pf now m
    refine ⟨fun hTo => ?_, fun hCc => ?_, fun hDate => ?_⟩
    · simp [OutlookService.parse_message, hTo]
    · simp [OutlookService.parse_message, hCc]
    · simp [OutlookService.parse_message, hDate]

theorem parse_message_defaults_witness :
    headerLookup raw8.headers "To" = none ∧
    (GmailService.parse_message (fun _ => none) 7 raw8).to_addrs = [""] ∧
    (GmailService.parse_message (fun _ => none) 7 raw8).date = 7 ∧
    oraw8.toRecipients = none ∧
    (OutlookService.parse_message (fun _ => none) 9 oraw8).to_addrs = [] ∧
    (OutlookService.parse_message (fun _ => none) 9 oraw8).date = 9 :=
  ⟨by decide,
   (parse_message_defaults.1 (fun _ => none) 7 raw8).1 (by decide),
   (parse_message_defaults.1 (fun _ => none) 7 raw8).2.2 (by decide),
   by decide,
   (parse_message_defaults.2 (fun _ => none) 9 oraw8).1 (by decide),
   (parse_message_defaults.2 (fun _ => none) 9 oraw8).2.2 (by decide)⟩

/-- Claim C5 (amended): `sync_account_async` consults no per-account
lease: its outcome is independent of whether another sync for the same
account is in flight, it returns Skipped exactly when the account is
missing or inactive (never with reason "in progress"), and a call
arriving during another in-flight sync executes the full pipeline. -/
theorem sync_consults_no_lease :
    ∀ (env : SyncEnv) (found b1 b2 : Bool) (d0 : DbState),
      sync_account_async env found b1 d0 = sync_account_async env found b2 d0 ∧
      ((sync_account_async env found b1 d0).status = SyncStatus.skipped ↔
        (found && d0.account.is_active) = false) ∧
      (sync_account_async env found b1 d0).reason ≠ some "in progress" := by
  intro env found b1 b2 d0
  refine ⟨rfl, ?_, ?_⟩ <;>
    · unfold sync_account_async
      cases hx : found && d0.account.is_active
      · simp [hx]
      · simp only [hx, Bool.not_true, Bool.false_eq_true, if_false]
        cases hr : sync_dispatch env d0.account.provider
            (if needs_refresh env d0.account = true then
              refresh_token_step env { pending := d0, durable := d0, commits := [] }
            else { pending := d0, durable := d0, commits := [] }) <;>
          simp [hr]

/-- On an active, found account, `refresh_attempted` records exactly
the source's expiry check. -/
lemma sync_refresh_attempted_eq (env : SyncEnv) (b : Bool) (d0 : DbState)
    (hact : d0.account.is_active = true) :
    (sync_account_async env true b d0).refresh_attempted = needs_refresh env d0.account := by
  unfold sync_account_async
  simp only [hact, Bool.and_true, Bool.and_self, Bool.not_true, Bool.false_eq_true, if_false]
  cases hr : sync_dispatch env d0.account.provider
      (if needs_refresh env d0.account = true then
        refresh_token_step env { pending := d0, durable := d0, commits := [] }
      else { pending := d0, durable := d0, commits := [] }) <;> simp [hr]

/-- A successful `sync_gmail_account` leaves the credential fields and
the active flag of the in-session account untouched and ends on a
commit. -/
lemma sync_gmail_account_ok_fields (env : SyncEnv) (s s2 : Sess)
    (h : sync_gmail_account env s = Except.ok s2) :
    s2.pending.account.access_token = s.pending.account.access_token ∧
    s2.pending.account.token_expiry = s.pending.account.token_expiry ∧
    s2.pending.account.encrypted_refresh_token = s.pending.account.encrypted_refresh_token ∧
    s2.pending.account.is_active = s.pending.account.is_active ∧
    s2.durable = s2.pending := by
  unfold sync_gmail_account at h
  simp only [] at h
  cases hf : GmailService.fetch_messages env.gmail s.pending.account.sync_state with
  | error e => rw [hf] at h; cases h
  | ok r =>
    rw [hf] at h
    cases r with
    | history data =>
      simp only [Except.ok.injEq] at h
      subst h
      simp [Sess.commit]
    | full msgs hid =>
      simp only [Except.ok.injEq] at h
      subst h
      by_cases hh : pyTruthyStrOpt hid = true <;>
        simp [hh, Sess.commit, Sess.withStore, Sess.withAccount]

/-- A successful `sync_outlook_account` leaves the credential fields
and the active flag of the in-session account untouched and ends on a
commit. -/
lemma sync_outlook_account_ok_fields (env : SyncEnv) (s s2 : Sess)
    (h : sync_outlook_account env s = Except.ok s2) :
    s2.pending.account.access_token = s.pending.account.access_token ∧
    s2.pending.account.token_expiry = s.pending.account.token_expiry ∧
    s2.pending.account.encrypted_refresh_token = s.pending.account.encrypted_refresh_token ∧
    s2.pending.account.is_active = s.pending.account.is_active ∧
    s2.durable = s2.pending := by
  unfold sync_outlook_account at h
  simp only [] at h
  cases hf : OutlookService.fetch_messages env.outlook s.pending.account.sync_state with
  | error e => rw [hf] at h; cases h
  | ok r =>
    rw [hf] at h
    simp only [Except.ok.injEq] at h
    subst h
    by_cases hh : pyTruthyStrOpt r.delta_link = true <;>
      simp [hh, Sess.commit, Sess.withStore, Sess.withAccount]

/-- On an active, found account with a committed-through post-refresh
session, the durable account after the sync call keeps that session's
credential fields, whatever the provider call does. -/
lemma sync_durable_credential_fields (env : SyncEnv) (b : Bool) (d0 : DbState) (s1 : Sess)
    (hact : d0.account.is_active = true)
    (hs1 : (if needs_refresh env d0.account = true then
              refresh_token_step env { pending := d0, durable := d0, commits := [] }
            else { pending := d0, durable := d0, commits := [] }) = s1)
    (hdp : s1.durable = s1.pending) :
    (sync_account_async env true b d0).sess.durable.account.access_token
        = s1.pending.account.access_token ∧
    (sync_account_async env true b d0).sess.durable.account.token_expiry
        = s1.pending.account.token_expiry ∧
    (sync_account_async env true b d0).sess.durable.account.encrypted_refresh_token
        = s1.pending.account.encrypted_refresh_token := by
  unfold sync_account_async
  simp only [hact, Bool.and_true, Bool.and_self, Bool.not_true, Bool.false_eq_true, if_false]
  rw [hs1]
  cases hp : d0.account.provider <;> simp only [sync_dispatch]
  case gmail =>
    cases hr : sync_gmail_account env s1 with
    | error e => simp [Sess.rollback, hdp]
    | ok s2 =>
      obtain ⟨h1, h2, h3, _h4, _h5⟩ := sync_gmail_account_ok_fields env s1 s2 hr
      simp [Sess.withAccount, Sess.commit, h1, h2, h3]
  case outlook =>
    cases hr : sync_outlook_account env s1 with
    | error e => simp [Sess.rollback, hdp]
    | ok s2 =>
      obtain ⟨h1, h2, h3, _h4, _h5⟩ := sync_outlook_account_ok_fields env s1 s2 hr
      simp [Sess.withAccount, Sess.commit, h1, h2, h3]

/-- Claim C7 (amended): the credential is refreshed exactly when
`token_expiry` is non-null and strictly in the past — there is no
safety margin, so a credential merely close to expiry is used as-is;
when a refresh is attempted with a stored refresh token and the
provider grants it, the durable account ends with the new access
token, expiry `now + expires_in` (default 3600), and the stored
encrypted refresh token rotated only if the provider issued a new
one. -/
theorem refresh_only_past_expiry (env : SyncEnv) (b : Bool) (d0 : DbState)
    (hact : d0.account.is_active = true) :
    ((sync_account_async env true b d0).refresh_attempted = true ↔
      (∃ e, d0.account.token_expiry = some e ∧ e < env.now)) ∧
    (∀ t : TokenResponse,
      pyTruthyStrOpt d0.account.encrypted_refresh_token = true →
      env.refresh_call = Except.ok t →
      (sync_account_async env true b d0).refresh_attempted = true →
      ((sync_account_async env true b d0).sess.durable.account.access_token
          = t.access_token ∧
       (sync_account_async env true b d0).sess.durable.account.token_expiry
          = some (env.now + t.expires_in.getD 3600) ∧
       (sync_account_async env true b d0).sess.durable.account.encrypted_refresh_token
          = (match t.refresh_token with
             | some rt => some (encryption_encrypt rt)
             | none => d0.account.encrypted_refresh_token))) := by
  constructor
  · rw [sync_refresh_attempted_eq env b d0 hact]
    unfold needs_refresh
    cases hte : d0.account.token_expiry <;> simp
  · intro t htt hrc hra
    rw [sync_refresh_attempted_eq env b d0 hact] at hra
    have hstep : refresh_token_step env { pending := d0, durable := d0, commits := [] } =
        Sess.commit (Sess.withAccount { pending := d0, durable := d0, commits := [] }
          { d0.account with
            access_token := t.access_token
            token_expiry := some (env.now + t.expires_in.getD 3600)
            encrypted_refresh_token :=
              match t.refresh_token with
              | some rt => some (encryption_encrypt rt)
              | none => d0.account.encrypted_refresh_token }) := by
      unfold refresh_token_step
      simp [htt, hrc]
    obtain ⟨h1, h2, h3⟩ := sync_durable_credential_fields env b d0
      (refresh_token_step env { pending := d0, durable := d0, commits := [] })
      hact (by rw [if_pos hra]) (by rw [hstep]; simp [Sess.commit])
    rw [h1, h2, h3, hstep]
    simp [Sess.commit, Sess.withAccount]

theorem refresh_only_past_expiry_witness :
    db4.account.is_active = true ∧
    ((sync_account_async envBase true false db4).refresh_attempted = true ↔
      (∃ e, db4.account.token_expiry = some e ∧ e < envBase.now)) ∧
    pyTruthyStrOpt db4.account.encrypted_refresh_token = true ∧
    (sync_account_async envBase true false db4).sess.durable.account.access_token
      = "fresh" :=
  ⟨rfl,
   (refresh_only_past_expiry envBase false db4 rfl).1,
   by decide,
   ((refresh_only_past_expiry envBase false db4 rfl).2
      { access_token := "fresh", expires_in := some 3600, refresh_token := none }
      (by decide) rfl (by decide)).1⟩

/-- Claim C10 (confirmed): when the account's token is expired and its
encrypted refresh token is null, `refresh_token` deactivates the
account without raising; the same sync call still performs the
provider fetch with the stale access token and — the fetch
succeeding — returns success while the account is left deactivated
in the durable state. -/
theorem deactivated_account_still_synced
    (env : SyncEnv) (b : Bool) (d0 : DbState) (e : Int)
    (hact : d0.account.is_active = true)
    (hexp : d0.account.token_expiry = some e)
    (hlt : e < env.now)
    (hrt : d0.account.encrypted_refresh_token = none) :
    (d0.account.provider = EmailProvider.gmail →
      ∀ r, GmailService.fetch_messages env.gmail d0.account.sync_state = Except.ok r →
        ((sync_account_async env true b d0).status = SyncStatus.success ∧
         (sync_account_async env true b d0).sess.durable.account.is_active = false ∧
         (sync_account_async env true b d0).fetch_attempted = true ∧
         (sync_account_async env true b d0).fetch_token = some d0.account.access_token)) ∧
    (d0.account.provider = EmailProvider.outlook →
      ∀ r, OutlookService.fetch_messages env.outlook d0.account.sync_state = Except.ok r →
        ((sync_account_async env true b d0).status = SyncStatus.success ∧
         (sync_account_async env true b d0).sess.durable.account.is_active = false ∧
         (sync_account_async env true b d0).fetch_attempted = true ∧
         (sync_account_async env true b d0).fetch_token = some d0.account.access_token)) := by
  obtain ⟨⟨aid, prov, atok, ert, texp, ss, lsa, act⟩, st⟩ := d0
  simp only at hact hexp hrt
  subst hact hexp hrt
  constructor
  · intro hprov r hfetch
    subst hprov
    simp only at hfetch
    unfold sync_account_async sync_dispatch sync_gmail_account
    simp only [needs_refresh, refresh_token_step, pyTruthyStrOpt, Sess.withAccount,
      Sess.commit, hlt, decide_eq_true_eq, if_true, Bool.and_self, Bool.not_true,
      Bool.false_eq_true, if_false, hfetch]
    cases r <;> simp [hfetch, Sess.withStore, Sess.withAccount, Sess.commit, apply_ite]
  · intro hprov r hfetch
    subst hprov
    simp only at hfetch
    unfold sync_account_async sync_dispatch sync_outlook_account
    simp only [needs_refresh, refresh_token_step, pyTruthyStrOpt, Sess.withAccount,
      Sess.commit, hlt, decide_eq_true_eq, if_true, Bool.and_self, Bool.not_true,
      Bool.false_eq_true, if_false, hfetch]
    simp [hfetch, Sess.withStore, Sess.withAccount, Sess.commit, apply_ite]

theorem deactivated_account_still_synced_witness :
    db10.account.is_active = true ∧ db10.account.token_expiry = some 0 ∧
    (0 : Int) < envBase.now ∧ db10.account.encrypted_refresh_token = none ∧
    ((sync_account_async envBase true false db10).status = SyncStatus.success ∧
     (sync_account_async envBase true false db10).sess.durable.account.is_active = false ∧
     (sync_account_async envBase true false db10).fetch_attempted = true ∧
     (sync_account_async envBase true false db10).fetch_token = some db10.account.access_token) :=
  ⟨rfl, rfl, by decide, rfl,
   (deactivated_account_still_synced envBase false db10 0 rfl rfl (by decide) rfl).1 rfl
     (GmailFetchResult.full [rawA] (some "h2")) rfl⟩

theorem sync_consults_no_lease_witness :
    sync_account_async envBase true true db0 = sync_account_async envBase true false db0 ∧
    ((sync_account_async envBase true true db0).status = SyncStatus.skipped ↔
      (true && db0.account.is_active) = false) :=
  ⟨(sync_consults_no_lease envBase true true false db0).1,
   (sync_consults_no_lease envBase true true false db0).2.1⟩

end UnifiedInbox
